import Mathlib

/-
Verification of the reconciliation engine of ai-block-bookkeeper.

Shallow embedding of:
  - src/backend/domain/models.py                         (data model)
  - src/backend/agents/reconciliation/matcher.py          (evaluate_match)
  - src/src/database/repositories/business_event_repository.py
                                                          (event store accessor)
together with a model of the Reconciliation Coordinator
(`handle_reconciliation_logic`), which is imported by
src/backend/tests/agents/reconciliation/test_reconciliation_agent.py but is
absent from the source tree, so it is modelled from the spec.

Conventions.  Machine integers are ℤ (Python ints are unbounded).  The Python
`Decimal(0.01)` (constructed from the binary64 float literal 0.01) is the exact
rational 5764607523034235 / 2^59; comparisons against the tolerance are stated
over ℤ after scaling both sides by the positive constant 2^59, which preserves
order.  JSON metadata is modelled by a record holding exactly the keys the
engine reads or writes.  A SQL table is a list of rows in physical scan order;
a query with no ORDER BY returns rows in that order.
-/

namespace Bookkeeper

/-- EventKind from src/backend/domain/models.py: closed set of the three kinds
the engine acts on. -/
inductive EventKind where
  | INVOICE_RECEIVED
  | INVOICE_SENT
  | PAYMENT_SENT
deriving DecidableEq, Repr

/-- ProcessingState from src/backend/domain/models.py. -/
inductive ProcessingState where
  | PENDING
  | MAPPED
  | RECONCILED
  | FLAGGED_FOR_REVIEW
deriving DecidableEq, Repr

/-- The JSON-like metadata field of a business event, restricted to the keys
the reconciliation engine reads or writes (`metadata.get(...)` /
`jsonb_set(metadata, ...)` in the source).  `none` models an absent key. -/
structure EventMetadata where
  invoice_number : Option String := none
  payment_reference : Option String := none
  reconciliation_match_id : Option String := none
  reconciliation_notes : List String := []
  reconciliation_attempted_at : Option String := none
deriving DecidableEq, Repr

/-- BusinessEvent from src/backend/domain/models.py merged with the columns of
the `business_events` table that the repository SQL touches (`processing_state`
is the column backing `processing.state`; `updated_at` is set by every UPDATE).
Identifiers and timestamps are opaque scalars. -/
structure BusinessEvent where
  event_id : String
  source_system : String := ""
  source_id : String := ""
  occurred_at : Nat := 0
  recorded_at : Nat := 0
  event_kind : EventKind
  amount_minor : ℤ
  currency : String
  processing_state : ProcessingState
  dedupe_key : String := ""
  metadata : EventMetadata := {}
  updated_at : Nat := 0
deriving DecidableEq, Repr

/-- DiscrepancyType from src/backend/domain/models.py. -/
inductive DiscrepancyType where
  | AMOUNT_MISMATCH
deriving DecidableEq, Repr

/-- Discrepancy from src/backend/domain/models.py. -/
structure Discrepancy where
  type : DiscrepancyType
  invoice_amount : ℤ
  payment_amount : ℤ
  difference : ℤ
deriving DecidableEq, Repr

/-- MatchResultType from src/backend/domain/models.py. -/
inductive MatchResultType where
  | PRIMARY_MATCH
  | PARTIAL_MATCH
  | NO_MATCH
deriving DecidableEq, Repr

/-- MatchResult from src/backend/domain/models.py.  Every field except `type`
is Optional with pydantic default None; confidence is a float (1.0 and 0.5 are
exactly representable, modelled as rationals). -/
structure MatchResult where
  type : MatchResultType
  confidence : Option ℚ := none
  invoice_id : Option String := none
  payment_id : Option String := none
  discrepancy : Option Discrepancy := none
deriving DecidableEq, Repr

/-- Python truthiness of `metadata.get(key)` as used by
`if not invoice_num or not payment_ref` in matcher.py: an absent key (None)
and the empty string are both falsy. -/
def isBlank : Option String → Bool
  | none => true
  | some s => s = ""

/-- The field-extraction block of `evaluate_match` (matcher.py lines 29-47):
`if event.event_kind == 'INVOICE_RECEIVED':` take the invoice-side fields from
`event`, `else:` (the source comments this branch `# event.event_kind ==
'PAYMENT_SENT'`) take them from `counterpart`.  Returned in source order:
(invoice_num, payment_ref, invoice_amount, payment_amount, invoice_id,
payment_id). -/
def extractFields (event counterpart : BusinessEvent) :
    Option String × Option String × ℤ × ℤ × String × String :=
  if event.event_kind = EventKind.INVOICE_RECEIVED then
    (event.metadata.invoice_number, counterpart.metadata.payment_reference,
     event.amount_minor, counterpart.amount_minor,
     event.event_id, counterpart.event_id)
  else
    (counterpart.metadata.invoice_number, event.metadata.payment_reference,
     counterpart.amount_minor, event.amount_minor,
     counterpart.event_id, event.event_id)

/-- The numerator of the exact binary64 value of the float literal 0.01:
`Decimal(TOLERANCE_PERCENT)` in matcher.py is exactly
5764607523034235 / 2^59 (0.01 is not representable in binary floating point;
`Decimal` of a float preserves the rounded value exactly). -/
def TOLERANCE_PERCENT_NUM : ℤ := 5764607523034235

/-- TOLERANCE_FIXED = 500 from matcher.py ($5.00 in minor units). -/
def TOLERANCE_FIXED : ℤ := 500

/-- The tolerance comparison of matcher.py:
`amount_diff <= min(invoice_amount * Decimal(0.01), Decimal(500))`, an exact
comparison between an integer and a decimal, stated over ℤ with both sides
scaled by the positive constant 2^59 (scaling by a positive constant preserves
the order, and min commutes with it). -/
def withinTolerance (invoice_amount amount_diff : ℤ) : Prop :=
  amount_diff * 2 ^ 59 ≤
    min (invoice_amount * TOLERANCE_PERCENT_NUM) (TOLERANCE_FIXED * 2 ^ 59)

instance (a d : ℤ) : Decidable (withinTolerance a d) := by
  unfold withinTolerance
  infer_instance

/-- evaluate_match from src/backend/agents/reconciliation/matcher.py.  The
source binds the extracted tuple to locals (invoice_num, payment_ref,
invoice_amount, payment_amount, invoice_id, payment_id) and
`amount_diff = abs(invoice_amount - payment_amount)`; here the projections of
`extractFields` are written inline in the same positions. -/
def evaluate_match (event : BusinessEvent) (counterpart : Option BusinessEvent) :
    MatchResult :=
  match counterpart with
  | none => { type := MatchResultType.NO_MATCH }
  | some cp =>
    if isBlank (extractFields event cp).1 ∨ isBlank (extractFields event cp).2.1 ∨
        (extractFields event cp).1 ≠ (extractFields event cp).2.1 then
      { type := MatchResultType.NO_MATCH }
    else
      if withinTolerance (extractFields event cp).2.2.1
          |(extractFields event cp).2.2.1 - (extractFields event cp).2.2.2.1| then
        { type := MatchResultType.PRIMARY_MATCH
          confidence := some 1
          invoice_id := some (extractFields event cp).2.2.2.2.1
          payment_id := some (extractFields event cp).2.2.2.2.2 }
      else
        { type := MatchResultType.PARTIAL_MATCH
          confidence := some (mkRat 1 2)
          invoice_id := some (extractFields event cp).2.2.2.2.1
          payment_id := some (extractFields event cp).2.2.2.2.2
          discrepancy := some
            { type := DiscrepancyType.AMOUNT_MISMATCH
              invoice_amount := (extractFields event cp).2.2.1
              payment_amount := (extractFields event cp).2.2.2.1
              difference := |(extractFields event cp).2.2.1 -
                (extractFields event cp).2.2.2.1| } }

/-- The tolerance comparison actually performed by the code (with the exact
decimal value of the float 0.01) coincides, for integer amounts and a
non-negative integer difference, with the spec's `min(invoice_amount * 0.01,
500)`: no integer can separate the two cutoffs. -/
theorem withinTolerance_iff_exact (a d : ℤ) (hd : 0 ≤ d) :
    withinTolerance a d ↔ (d : ℚ) ≤ min ((a : ℚ) * (1 / 100)) 500 := by
  unfold withinTolerance TOLERANCE_PERCENT_NUM TOLERANCE_FIXED
  rw [le_min_iff, le_min_iff]
  have h100 : (d : ℚ) ≤ (a : ℚ) * (1 / 100) ↔ d * 100 ≤ a := by
    rw [mul_one_div, le_div_iff₀ (by norm_num)]
    exact_mod_cast Iff.rfl
  have h500 : (d : ℚ) ≤ 500 ↔ d ≤ (500 : ℤ) := by exact_mod_cast Iff.rfl
  rw [h100, h500]
  constructor
  · rintro ⟨h1, h2⟩
    exact ⟨by omega, by omega⟩
  · rintro ⟨h1, h2⟩
    exact ⟨by omega, by omega⟩

/-- Scenario A invoice: amount_minor 100000, USD, invoice_number INV-001,
state MAPPED (test fixture base_invoice). -/
def wInvoice : BusinessEvent :=
  { event_id := "inv-1"
    recorded_at := 1
    event_kind := EventKind.INVOICE_RECEIVED
    amount_minor := 100000
    currency := "USD"
    processing_state := ProcessingState.MAPPED
    metadata := { invoice_number := some "INV-001" } }

/-- Scenario A payment: amount_minor 100000, USD, payment_reference INV-001,
state MAPPED (test fixture matching_payment). -/
def wPayment : BusinessEvent :=
  { event_id := "pay-1"
    recorded_at := 2
    event_kind := EventKind.PAYMENT_SENT
    amount_minor := 100000
    currency := "USD"
    processing_state := ProcessingState.MAPPED
    metadata := { payment_reference := some "INV-001" } }

/-- C1: for every event/counterpart pair whose extracted references are
present, non-empty and exactly equal, evaluate_match classifies by the amount
difference against the tolerance min(invoice_amount * 0.01, 500): within
tolerance it returns PRIMARY_MATCH with confidence 1.0 and no discrepancy,
otherwise PARTIAL_MATCH with confidence 0.5 and an AMOUNT_MISMATCH discrepancy
whose difference equals the absolute amount difference exactly; moreover a
discrepancy is never present on a PRIMARY_MATCH and its difference is always
non-negative. -/
theorem evaluate_match_classifies_by_tolerance (event cp : BusinessEvent)
    (r : String) (hr : r ≠ "")
    (hinv : (extractFields event cp).1 = some r)
    (hpay : (extractFields event cp).2.1 = some r) :
    (((|(extractFields event cp).2.2.1 - (extractFields event cp).2.2.2.1| : ℤ) : ℚ) ≤
        min (((extractFields event cp).2.2.1 : ℚ) * (1 / 100)) 500 →
      evaluate_match event (some cp) =
        { type := MatchResultType.PRIMARY_MATCH
          confidence := some 1
          invoice_id := some (extractFields event cp).2.2.2.2.1
          payment_id := some (extractFields event cp).2.2.2.2.2 }) ∧
    (¬ (((|(extractFields event cp).2.2.1 - (extractFields event cp).2.2.2.1| : ℤ) : ℚ) ≤
        min (((extractFields event cp).2.2.1 : ℚ) * (1 / 100)) 500) →
      evaluate_match event (some cp) =
        { type := MatchResultType.PARTIAL_MATCH
          confidence := some (mkRat 1 2)
          invoice_id := some (extractFields event cp).2.2.2.2.1
          payment_id := some (extractFields event cp).2.2.2.2.2
          discrepancy := some
            { type := DiscrepancyType.AMOUNT_MISMATCH
              invoice_amount := (extractFields event cp).2.2.1
              payment_amount := (extractFields event cp).2.2.2.1
              difference := |(extractFields event cp).2.2.1 -
                (extractFields event cp).2.2.2.1| } }) ∧
    (∀ dd, (evaluate_match event (some cp)).discrepancy = some dd →
      0 ≤ dd.difference ∧
        (evaluate_match event (some cp)).type ≠ MatchResultType.PRIMARY_MATCH) := by
  have hblank : ¬ (isBlank (extractFields event cp).1 ∨
      isBlank (extractFields event cp).2.1 ∨
      (extractFields event cp).1 ≠ (extractFields event cp).2.1) := by
    simp [hinv, hpay, isBlank, hr]
  have key := withinTolerance_iff_exact (extractFields event cp).2.2.1
    |(extractFields event cp).2.2.1 - (extractFields event cp).2.2.2.1| (abs_nonneg _)
  have hsome : evaluate_match event (some cp) =
      if isBlank (extractFields event cp).1 ∨ isBlank (extractFields event cp).2.1 ∨
          (extractFields event cp).1 ≠ (extractFields event cp).2.1 then
        { type := MatchResultType.NO_MATCH }
      else
        if withinTolerance (extractFields event cp).2.2.1
            |(extractFields event cp).2.2.1 - (extractFields event cp).2.2.2.1| then
          { type := MatchResultType.PRIMARY_MATCH
            confidence := some 1
            invoice_id := some (extractFields event cp).2.2.2.2.1
            payment_id := some (extractFields event cp).2.2.2.2.2 }
        else
          { type := MatchResultType.PARTIAL_MATCH
            confidence := some (mkRat 1 2)
            invoice_id := some (extractFields event cp).2.2.2.2.1
            payment_id := some (extractFields event cp).2.2.2.2.2
            discrepancy := some
              { type := DiscrepancyType.AMOUNT_MISMATCH
                invoice_amount := (extractFields event cp).2.2.1
                payment_amount := (extractFields event cp).2.2.2.1
                difference := |(extractFields event cp).2.2.1 -
                  (extractFields event cp).2.2.2.1| } } := rfl
  refine ⟨fun h => ?_, fun h => ?_, fun dd hdd => ?_⟩
  · rw [hsome, if_neg hblank, if_pos (key.mpr h)]
  · rw [hsome, if_neg hblank, if_neg (fun hc => h (key.mp hc))]
  · rw [hsome, if_neg hblank] at hdd ⊢
    by_cases htol : withinTolerance (extractFields event cp).2.2.1
        |(extractFields event cp).2.2.1 - (extractFields event cp).2.2.2.1|
    · rw [if_pos htol] at hdd
      simp at hdd
    · rw [if_neg htol] at hdd ⊢
      simp only [Option.some.injEq] at hdd
      subst hdd
      exact ⟨abs_nonneg _, by simp⟩

/-- C1 witness: Scenario A (invoice 100000 USD INV-001 against payment 100000
USD INV-001) is within tolerance and yields PRIMARY_MATCH with confidence 1.0
and no discrepancy. -/
theorem evaluate_match_classifies_by_tolerance_witness :
    evaluate_match wInvoice (some wPayment) =
      { type := MatchResultType.PRIMARY_MATCH
        confidence := some 1
        invoice_id := some "inv-1"
        payment_id := some "pay-1" } :=
  (evaluate_match_classifies_by_tolerance wInvoice wPayment "INV-001"
    (by decide) rfl rfl).1 (by norm_num [extractFields, wInvoice, wPayment])

/-- A perfectly matching INVOICE_SENT event for the C7 failing input: same
reference INV-001 and same amount as wPayment. -/
def invoiceSentEvent : BusinessEvent :=
  { event_id := "inv-2"
    recorded_at := 3
    event_kind := EventKind.INVOICE_SENT
    amount_minor := 100000
    currency := "USD"
    processing_state := ProcessingState.MAPPED
    metadata := { invoice_number := some "INV-001" } }

/-- C7 (code bug): matcher.py branches only on INVOICE_RECEIVED, with the else
branch commented as the PAYMENT_SENT case, yet INVOICE_SENT events reach
evaluate_match (process_reconciliation routes them to a payment counterpart).
For an INVOICE_SENT event the extraction therefore takes the invoice fields
from the payment-kind counterpart and treats the invoice-kind event as the
payment side: on a pair matching perfectly on reference and amount the
extracted invoice reference is absent (the payment carries no invoice_number)
and the extracted invoice id is the payment's id, so the result is NO_MATCH
instead of the PRIMARY_MATCH the claim implies. -/
theorem evaluate_match_invoice_sent_misrouted :
    invoiceSentEvent.metadata.invoice_number = some "INV-001" ∧
    wPayment.metadata.payment_reference = some "INV-001" ∧
    invoiceSentEvent.amount_minor = wPayment.amount_minor ∧
    (extractFields invoiceSentEvent wPayment).1 = none ∧
    (extractFields invoiceSentEvent wPayment).2.2.2.2.1 = "pay-1" ∧
    evaluate_match invoiceSentEvent (some wPayment) =
      { type := MatchResultType.NO_MATCH } := by
  refine ⟨rfl, rfl, rfl, rfl, rfl, ?_⟩
  decide

/-- C8 (amended): evaluate_match(event, None) returns NO_MATCH with every
optional field left unset, in particular confidence None rather than 0.0,
regardless of the event's kind, amounts, references or other contents. -/
theorem evaluate_match_no_counterpart (e : BusinessEvent) :
    evaluate_match e none =
      { type := MatchResultType.NO_MATCH
        confidence := none
        invoice_id := none
        payment_id := none
        discrepancy := none } := rfl

/-- C8 counterexample: on the no-counterpart path the claim asserts confidence
0.0, but the code constructs MatchResult(type=NO_MATCH) leaving confidence at
its pydantic default None, so the returned confidence is not 0.0. -/
theorem evaluate_match_no_counterpart_confidence_not_zero :
    ¬ ((evaluate_match wInvoice none).type = MatchResultType.NO_MATCH ∧
       (evaluate_match wInvoice none).confidence = some 0) := by
  decide

/-- One row of the append-only audit_logs table; the INSERT in create_audit_log
fixes entity_type, actor_type and actor_id. -/
structure AuditLogRow where
  action : String
  entity_type : String
  entity_id : String
  actor_type : String
  actor_id : String
  changes : List String
  metadata : String
deriving DecidableEq, Repr

/-- The durable store: the business_events table (rows in physical scan order,
which is what a SELECT with no ORDER BY returns) and the audit_logs table. -/
structure DBState where
  business_events : List BusinessEvent
  audit_logs : List AuditLogRow
deriving DecidableEq, Repr

/-- get_business_event_by_id from business_event_repository.py:
SELECT * FROM business_events WHERE event_id = $1 (fetchrow: first matching
row or none). -/
def get_business_event_by_id (db : DBState) (event_id : String) :
    Option BusinessEvent :=
  db.business_events.find? (fun r => r.event_id == event_id)

/-- The WHERE clause of find_payment_by_reference: kind PAYMENT_SENT, the given
processing_state and currency, metadata->>'payment_reference' equal to the
given reference (absent key gives SQL NULL, never equal), and
metadata->>'reconciliation_match_id' IS NULL. -/
def paymentMatches (payment_reference : String) (processing_state : ProcessingState)
    (currency : String) (r : BusinessEvent) : Bool :=
  r.event_kind = EventKind.PAYMENT_SENT ∧
  r.processing_state = processing_state ∧
  r.currency = currency ∧
  r.metadata.payment_reference = some payment_reference ∧
  r.metadata.reconciliation_match_id = none

/-- find_payment_by_reference from business_event_repository.py: the query has
LIMIT 1 and no ORDER BY, so it returns the first matching row in table scan
order. -/
def find_payment_by_reference (db : DBState) (payment_reference : String)
    (processing_state : ProcessingState) (currency : String) : Option BusinessEvent :=
  db.business_events.find? (paymentMatches payment_reference processing_state currency)

/-- The WHERE clause of find_invoice_by_number: kind INVOICE_RECEIVED, the
given processing_state and currency, metadata->>'invoice_number' equal to the
given number, and no reconciliation_match_id. -/
def invoiceMatches (invoice_number : String) (processing_state : ProcessingState)
    (currency : String) (r : BusinessEvent) : Bool :=
  r.event_kind = EventKind.INVOICE_RECEIVED ∧
  r.processing_state = processing_state ∧
  r.currency = currency ∧
  r.metadata.invoice_number = some invoice_number ∧
  r.metadata.reconciliation_match_id = none

/-- find_invoice_by_number from business_event_repository.py: LIMIT 1, no
ORDER BY. -/
def find_invoice_by_number (db : DBState) (invoice_number : String)
    (processing_state : ProcessingState) (currency : String) : Option BusinessEvent :=
  db.business_events.find? (invoiceMatches invoice_number processing_state currency)

/-- Insertion of an element into a list already sorted by `le`. -/
def insertSorted (le : BusinessEvent → BusinessEvent → Bool) (a : BusinessEvent) :
    List BusinessEvent → List BusinessEvent
  | [] => [a]
  | b :: l => if le a b then a :: b :: l else b :: insertSorted le a l

/-- Sorting model for SQL ORDER BY: insertion sort by the given key order. -/
def sortRows (le : BusinessEvent → BusinessEvent → Bool) :
    List BusinessEvent → List BusinessEvent
  | [] => []
  | a :: l => insertSorted le a (sortRows le l)

/-- The WHERE clause of get_unreconciled_mapped_events: state MAPPED, kind IN
(INVOICE_RECEIVED, PAYMENT_SENT), and no reconciliation_match_id. -/
def sweepEligible (r : BusinessEvent) : Bool :=
  r.processing_state = ProcessingState.MAPPED ∧
  (r.event_kind = EventKind.INVOICE_RECEIVED ∨
   r.event_kind = EventKind.PAYMENT_SENT) ∧
  r.metadata.reconciliation_match_id = none

/-- get_unreconciled_mapped_events from business_event_repository.py: the
periodic sweep's batch query (ORDER BY recorded_at ASC LIMIT $1 FOR UPDATE
NOWAIT); the row locks it takes are modelled with the dispatcher below. -/
def get_unreconciled_mapped_events (db : DBState) (limit : Nat) :
    List BusinessEvent :=
  (sortRows (fun a b => a.recorded_at ≤ b.recorded_at)
    (db.business_events.filter sweepEligible)).take limit

/-- UPDATE of a single row selected by event_id, applying `f` to it and leaving
every other row unchanged. -/
def updateRow (db : DBState) (event_id : String)
    (f : BusinessEvent → BusinessEvent) : DBState :=
  { db with business_events :=
      db.business_events.map (fun r => if r.event_id == event_id then f r else r) }

/-- The SET clause of the UPDATE in update_both_to_reconciled:
processing_state = RECONCILED, jsonb_set of reconciliation_match_id to the
matched id, reconciliation_notes appended with the match info, and
updated_at = NOW(). -/
def applyReconciledUpdate (matched_id : String) (match_info : String) (now : Nat)
    (r : BusinessEvent) : BusinessEvent :=
  { r with
      processing_state := ProcessingState.RECONCILED
      metadata := { r.metadata with
        reconciliation_match_id := some matched_id
        reconciliation_notes := r.metadata.reconciliation_notes ++ [match_info] }
      updated_at := now }

/-- The SET clause of the UPDATE in flag_both_for_review: as in
applyReconciledUpdate but with target state FLAGGED_FOR_REVIEW and the
discrepancy appended to the notes. -/
def applyFlaggedUpdate (matched_id : String) (discrepancy : String) (now : Nat)
    (r : BusinessEvent) : BusinessEvent :=
  { r with
      processing_state := ProcessingState.FLAGGED_FOR_REVIEW
      metadata := { r.metadata with
        reconciliation_match_id := some matched_id
        reconciliation_notes := r.metadata.reconciliation_notes ++ [discrepancy] }
      updated_at := now }

/-- Statement execution inside an open transaction: `failAfter = some k`
injects a store failure once `k` statements have executed (k = number of
statements means a failure at commit); `none` means no failure. -/
def runStatements (s : DBState) :
    List (DBState → DBState) → Option Nat → Except String DBState
  | _, some 0 => Except.error "store failure"
  | [], _ => Except.ok s
  | u :: rest, failAfter => runStatements (u s) rest (failAfter.map (· - 1))

/-- Embedding of `async with db.transaction()` around a statement list: on
success the new state is committed; on a failure PostgreSQL rolls the
transaction back, so the committed state is the original one. -/
def withTransaction (db : DBState) (stmts : List (DBState → DBState))
    (failAfter : Option Nat) : DBState :=
  match runStatements db stmts failAfter with
  | Except.ok s => s
  | Except.error _ => db

/-- update_both_to_reconciled from business_event_repository.py: one
transaction containing the two row UPDATEs, each stamping the other event's id
and the match info. -/
def update_both_to_reconciled (db : DBState) (event1_id event2_id : String)
    (match_info : String) (now : Nat) (failAfter : Option Nat) : DBState :=
  withTransaction db
    [fun s => updateRow s event1_id (applyReconciledUpdate event2_id match_info now),
     fun s => updateRow s event2_id (applyReconciledUpdate event1_id match_info now)]
    failAfter

/-- flag_both_for_review from business_event_repository.py: same shape with
target state FLAGGED_FOR_REVIEW. -/
def flag_both_for_review (db : DBState) (event1_id event2_id : String)
    (discrepancy : String) (now : Nat) (failAfter : Option Nat) : DBState :=
  withTransaction db
    [fun s => updateRow s event1_id (applyFlaggedUpdate event2_id discrepancy now),
     fun s => updateRow s event2_id (applyFlaggedUpdate event1_id discrepancy now)]
    failAfter

/-- The SET clause of update_reconciliation_attempt: jsonb_set of
metadata->reconciliation_attempted_at to the given timestamp string, and
updated_at = NOW(). -/
def applyAttemptUpdate (attempted_at : String) (now : Nat)
    (r : BusinessEvent) : BusinessEvent :=
  { r with
      metadata := { r.metadata with
        reconciliation_attempted_at := some attempted_at }
      updated_at := now }

/-- update_reconciliation_attempt from business_event_repository.py: a single
row UPDATE with the SET clause above. -/
def update_reconciliation_attempt (db : DBState) (event_id : String)
    (attempted_at : String) (now : Nat) : DBState :=
  updateRow db event_id (applyAttemptUpdate attempted_at now)

/-- create_audit_log from business_event_repository.py: INSERT INTO audit_logs
with entity_type BUSINESS_EVENT, actor_type AI_AGENT and actor_id
reconciliation-agent. -/
def create_audit_log (db : DBState) (action : String) (entity_id : String)
    (changes : List String) (metadata : String) : DBState :=
  { db with audit_logs := db.audit_logs ++
      [{ action := action
         entity_type := "BUSINESS_EVENT"
         entity_id := entity_id
         actor_type := "AI_AGENT"
         actor_id := "reconciliation-agent"
         changes := changes
         metadata := metadata }] }

/-- Row lookup commutes with a single-row update: the mapped table has the
same event ids (the update preserves them), so the first row with id `j` is
the original first row with id `j`, updated when `i = j`. -/
theorem find?_id_map_update (l : List BusinessEvent) (i j : String)
    (f : BusinessEvent → BusinessEvent)
    (hid : ∀ r, (f r).event_id = r.event_id) :
    (l.map (fun r => if r.event_id == i then f r else r)).find?
        (fun r => r.event_id == j) =
      (l.find? (fun r => r.event_id == j)).map
        (fun r => if r.event_id == i then f r else r) := by
  induction l with
  | nil => rfl
  | cons a l ih =>
    have hsame : ((if a.event_id == i then f a else a).event_id == j)
        = (a.event_id == j) := by
      by_cases hi : a.event_id == i
      · simp [hi, hid]
      · simp [hi]
    rw [List.map_cons]
    by_cases hj : (a.event_id == j) = true
    · rw [List.find?_cons_of_pos _ (by rw [hsame]; exact hj),
        @List.find?_cons_of_pos _ (fun r => r.event_id == j) a l hj]
      rfl
    · rw [List.find?_cons_of_neg _ (by rw [hsame]; exact hj),
        @List.find?_cons_of_neg _ (fun r => r.event_id == j) a l (by exact hj), ih]

/-- Looking up a different id after updateRow gives the original row. -/
theorem get_updateRow_other (db : DBState) (i j : String)
    (f : BusinessEvent → BusinessEvent)
    (hid : ∀ r, (f r).event_id = r.event_id) (hne : i ≠ j) :
    get_business_event_by_id (updateRow db i f) j =
      get_business_event_by_id db j := by
  unfold get_business_event_by_id updateRow
  rw [find?_id_map_update db.business_events i j f hid]
  cases h : db.business_events.find? (fun r => r.event_id == j) with
  | none => rfl
  | some r =>
    have hr := List.find?_some h
    simp only [beq_iff_eq] at hr
    have hri : ¬ ((r.event_id == i) = true) := by
      simp only [beq_iff_eq, hr]
      exact fun hh => hne hh.symm
    simp only [Option.map_some', if_neg hri]

/-- Looking up the updated id after updateRow gives the updated row. -/
theorem get_updateRow_self (db : DBState) (i : String)
    (f : BusinessEvent → BusinessEvent)
    (hid : ∀ r, (f r).event_id = r.event_id) :
    get_business_event_by_id (updateRow db i f) i =
      (get_business_event_by_id db i).map f := by
  unfold get_business_event_by_id updateRow
  rw [find?_id_map_update db.business_events i i f hid]
  cases h : db.business_events.find? (fun r => r.event_id == i) with
  | none => rfl
  | some r =>
    have hr := List.find?_some h
    simp only [beq_iff_eq] at hr
    simp [hr]

/-- updateRow does not touch the audit log table. -/
theorem updateRow_audit (db : DBState) (i : String)
    (f : BusinessEvent → BusinessEvent) :
    (updateRow db i f).audit_logs = db.audit_logs := rfl

/-- With no injected failure, the first row of a reconcile-pair update carries
the RECONCILED state and the second event's id. -/
theorem get_update_both_to_reconciled_fst (db : DBState) (e1 e2 info : String)
    (now : Nat) (hne : e1 ≠ e2) :
    get_business_event_by_id (update_both_to_reconciled db e1 e2 info now none)
        e1 =
      (get_business_event_by_id db e1).map (applyReconciledUpdate e2 info now) := by
  show get_business_event_by_id (updateRow (updateRow db e1
      (applyReconciledUpdate e2 info now)) e2
      (applyReconciledUpdate e1 info now)) e1 = _
  rw [get_updateRow_other (updateRow db e1 (applyReconciledUpdate e2 info now))
      e2 e1 (applyReconciledUpdate e1 info now) (fun _ => rfl)
      (fun hh => hne hh.symm),
    get_updateRow_self db e1 (applyReconciledUpdate e2 info now) (fun _ => rfl)]

/-- With no injected failure, the second row of a reconcile-pair update
carries the RECONCILED state and the first event's id. -/
theorem get_update_both_to_reconciled_snd (db : DBState) (e1 e2 info : String)
    (now : Nat) (hne : e1 ≠ e2) :
    get_business_event_by_id (update_both_to_reconciled db e1 e2 info now none)
        e2 =
      (get_business_event_by_id db e2).map (applyReconciledUpdate e1 info now) := by
  show get_business_event_by_id (updateRow (updateRow db e1
      (applyReconciledUpdate e2 info now)) e2
      (applyReconciledUpdate e1 info now)) e2 = _
  rw [get_updateRow_self (updateRow db e1 (applyReconciledUpdate e2 info now))
      e2 (applyReconciledUpdate e1 info now) (fun _ => rfl),
    get_updateRow_other db e1 e2 (applyReconciledUpdate e2 info now)
      (fun _ => rfl) hne]

/-- With no injected failure, the first row of a flag-pair update carries the
FLAGGED_FOR_REVIEW state and the second event's id. -/
theorem get_flag_both_for_review_fst (db : DBState) (e1 e2 info : String)
    (now : Nat) (hne : e1 ≠ e2) :
    get_business_event_by_id (flag_both_for_review db e1 e2 info now none) e1 =
      (get_business_event_by_id db e1).map (applyFlaggedUpdate e2 info now) := by
  show get_business_event_by_id (updateRow (updateRow db e1
      (applyFlaggedUpdate e2 info now)) e2
      (applyFlaggedUpdate e1 info now)) e1 = _
  rw [get_updateRow_other (updateRow db e1 (applyFlaggedUpdate e2 info now))
      e2 e1 (applyFlaggedUpdate e1 info now) (fun _ => rfl)
      (fun hh => hne hh.symm),
    get_updateRow_self db e1 (applyFlaggedUpdate e2 info now) (fun _ => rfl)]

/-- With no injected failure, the second row of a flag-pair update carries the
FLAGGED_FOR_REVIEW state and the first event's id. -/
theorem get_flag_both_for_review_snd (db : DBState) (e1 e2 info : String)
    (now : Nat) (hne : e1 ≠ e2) :
    get_business_event_by_id (flag_both_for_review db e1 e2 info now none) e2 =
      (get_business_event_by_id db e2).map (applyFlaggedUpdate e1 info now) := by
  show get_business_event_by_id (updateRow (updateRow db e1
      (applyFlaggedUpdate e2 info now)) e2
      (applyFlaggedUpdate e1 info now)) e2 = _
  rw [get_updateRow_self (updateRow db e1 (applyFlaggedUpdate e2 info now))
      e2 (applyFlaggedUpdate e1 info now) (fun _ => rfl),
    get_updateRow_other db e1 e2 (applyFlaggedUpdate e2 info now)
      (fun _ => rfl) hne]

/-- C3: for every pair of distinct event ids, the transition to RECONCILED via
update_both_to_reconciled, and to FLAGGED_FOR_REVIEW via flag_both_for_review,
is atomic over both members: with no failure both rows receive the new state
and each other's id (the per-row SET is applyReconciledUpdate resp.
applyFlaggedUpdate, which sets the state and the counterpart id); with a
failure injected between the two row UPDATEs the transaction rolls back and
the store is completely unchanged. -/
theorem reconcile_pair_atomicity (db : DBState) (e1 e2 : String)
    (info : String) (now : Nat) (hne : e1 ≠ e2) :
    (get_business_event_by_id (update_both_to_reconciled db e1 e2 info now none) e1 =
        (get_business_event_by_id db e1).map (applyReconciledUpdate e2 info now) ∧
     get_business_event_by_id (update_both_to_reconciled db e1 e2 info now none) e2 =
        (get_business_event_by_id db e2).map (applyReconciledUpdate e1 info now)) ∧
    update_both_to_reconciled db e1 e2 info now (some 1) = db ∧
    (get_business_event_by_id (flag_both_for_review db e1 e2 info now none) e1 =
        (get_business_event_by_id db e1).map (applyFlaggedUpdate e2 info now) ∧
     get_business_event_by_id (flag_both_for_review db e1 e2 info now none) e2 =
        (get_business_event_by_id db e2).map (applyFlaggedUpdate e1 info now)) ∧
    flag_both_for_review db e1 e2 info now (some 1) = db ∧
    (∀ r, (applyReconciledUpdate e2 info now r).processing_state =
        ProcessingState.RECONCILED ∧
      (applyReconciledUpdate e2 info now r).metadata.reconciliation_match_id =
        some e2) ∧
    (∀ r, (applyFlaggedUpdate e2 info now r).processing_state =
        ProcessingState.FLAGGED_FOR_REVIEW ∧
      (applyFlaggedUpdate e2 info now r).metadata.reconciliation_match_id =
        some e2) := by
  exact ⟨⟨get_update_both_to_reconciled_fst db e1 e2 info now hne,
      get_update_both_to_reconciled_snd db e1 e2 info now hne⟩, rfl,
    ⟨get_flag_both_for_review_fst db e1 e2 info now hne,
      get_flag_both_for_review_snd db e1 e2 info now hne⟩, rfl,
    fun r => ⟨rfl, rfl⟩, fun r => ⟨rfl, rfl⟩⟩

/-- A two-row store holding the Scenario A invoice and payment, used by the
witnesses below. -/
def exDB : DBState :=
  { business_events := [wInvoice, wPayment], audit_logs := [] }

/-- C3 witness: on the concrete two-row store, a failure injected between the
two UPDATEs leaves the store unchanged, and the failure-free run updates the
invoice row. -/
theorem reconcile_pair_atomicity_witness :
    update_both_to_reconciled exDB "inv-1" "pay-1" "m" 9 (some 1) = exDB ∧
    get_business_event_by_id
        (update_both_to_reconciled exDB "inv-1" "pay-1" "m" 9 none) "inv-1" =
      (get_business_event_by_id exDB "inv-1").map
        (applyReconciledUpdate "pay-1" "m" 9) :=
  ⟨(reconcile_pair_atomicity exDB "inv-1" "pay-1" "m" 9 (by decide)).2.1,
   (reconcile_pair_atomicity exDB "inv-1" "pay-1" "m" 9 (by decide)).1.1⟩

/-- C9 (amended): on a NO_MATCH outcome, update_reconciliation_attempt changes
exactly the metadata key reconciliation_attempted_at and the row's updated_at
column (the SQL also executes updated_at = NOW()); the state and every other
field of the row are unchanged, every other row is unchanged, and no audit
entry is written. -/
theorem update_reconciliation_attempt_frame (db : DBState) (eid t : String)
    (now : Nat) (r : BusinessEvent)
    (h : get_business_event_by_id db eid = some r) :
    get_business_event_by_id (update_reconciliation_attempt db eid t now) eid =
      some { r with
        metadata := { r.metadata with reconciliation_attempted_at := some t }
        updated_at := now } ∧
    (∀ j, j ≠ eid →
      get_business_event_by_id (update_reconciliation_attempt db eid t now) j =
        get_business_event_by_id db j) ∧
    (update_reconciliation_attempt db eid t now).audit_logs = db.audit_logs := by
  refine ⟨?_, fun j hj => ?_, rfl⟩
  · unfold update_reconciliation_attempt
    rw [get_updateRow_self db eid (applyAttemptUpdate t now) (fun _ => rfl), h]
    rfl
  · unfold update_reconciliation_attempt
    exact get_updateRow_other db eid j (applyAttemptUpdate t now)
      (fun _ => rfl) (fun hh => hj hh.symm)

/-- C9 witness: on the concrete store the invoice row keeps state MAPPED and
all fields except the attempt timestamp and updated_at. -/
theorem update_reconciliation_attempt_frame_witness :
    get_business_event_by_id
        (update_reconciliation_attempt exDB "inv-1" "t1" 7) "inv-1" =
      some { wInvoice with
        metadata := { wInvoice.metadata with
          reconciliation_attempted_at := some "t1" }
        updated_at := 7 } :=
  (update_reconciliation_attempt_frame exDB "inv-1" "t1" 7 wInvoice rfl).1

/-- C9 counterexample: the claim says every field other than
reconciliation_attempted_at is unchanged, but the UPDATE also sets
updated_at = NOW(): on the concrete store the row's updated_at differs after
the call. -/
theorem update_reconciliation_attempt_changes_updated_at :
    (get_business_event_by_id
        (update_reconciliation_attempt exDB "inv-1" "t1" 7) "inv-1").map
      (fun r => r.updated_at) ≠
    (get_business_event_by_id exDB "inv-1").map (fun r => r.updated_at) := by
  decide

/-- Membership is preserved by sorted insertion. -/
theorem mem_insertSorted (le : BusinessEvent → BusinessEvent → Bool)
    (a b : BusinessEvent) (l : List BusinessEvent) :
    b ∈ insertSorted le a l ↔ b = a ∨ b ∈ l := by
  induction l with
  | nil => simp [insertSorted]
  | cons c l ih =>
    by_cases h : le a c
    · simp only [insertSorted, if_pos h, List.mem_cons]
      try tauto
    · simp only [insertSorted, if_neg h, List.mem_cons, ih]
      try tauto

/-- Membership is preserved by the ORDER BY model. -/
theorem mem_sortRows (le : BusinessEvent → BusinessEvent → Bool)
    (a : BusinessEvent) (l : List BusinessEvent) :
    a ∈ sortRows le l ↔ a ∈ l := by
  induction l with
  | nil => simp [sortRows]
  | cons c l ih =>
    simp [sortRows, mem_insertSorted, ih]

/-- C10: every event in a batch returned by the periodic sweep's query is of
kind INVOICE_RECEIVED or PAYMENT_SENT (the WHERE clause filters on this pair),
so an eligible MAPPED INVOICE_SENT event is never included in a swept batch. -/
theorem sweep_batch_kind_filter (db : DBState) (limit : Nat) (ev : BusinessEvent)
    (h : ev ∈ get_unreconciled_mapped_events db limit) :
    (ev.event_kind = EventKind.INVOICE_RECEIVED ∨
     ev.event_kind = EventKind.PAYMENT_SENT) ∧
    ev.event_kind ≠ EventKind.INVOICE_SENT := by
  have h1 : ev ∈ sortRows (fun a b => a.recorded_at ≤ b.recorded_at)
      (db.business_events.filter sweepEligible) := List.mem_of_mem_take h
  have h2 : ev ∈ db.business_events.filter sweepEligible :=
    (mem_sortRows _ _ _).mp h1
  have h3 : sweepEligible ev = true := (List.mem_filter.mp h2).2
  unfold sweepEligible at h3
  simp only [decide_eq_true_eq, Bool.and_eq_true, Bool.or_eq_true] at h3
  rcases h3 with ⟨-, hkind, -⟩
  rcases hkind with hk | hk <;> rw [hk] <;> simp

/-- C10 witness: on the concrete two-row store the sweep batch contains the
MAPPED invoice, and its kind is in the filtered pair and not INVOICE_SENT. -/
theorem sweep_batch_kind_filter_witness :
    wInvoice ∈ get_unreconciled_mapped_events exDB 50 ∧
    (wInvoice.event_kind = EventKind.INVOICE_RECEIVED ∨
     wInvoice.event_kind = EventKind.PAYMENT_SENT) ∧
    wInvoice.event_kind ≠ EventKind.INVOICE_SENT :=
  ⟨by decide, sweep_batch_kind_filter exDB 50 wInvoice (by decide)⟩

/-- An old eligible payment for reference INV-9, recorded at time 5. -/
def oldPayment : BusinessEvent :=
  { event_id := "pay-old"
    recorded_at := 5
    event_kind := EventKind.PAYMENT_SENT
    amount_minor := 4200
    currency := "USD"
    processing_state := ProcessingState.MAPPED
    metadata := { payment_reference := some "INV-9" } }

/-- A newer eligible payment for the same reference INV-9, recorded at time
10 but stored earlier in physical scan order. -/
def newPayment : BusinessEvent :=
  { event_id := "pay-new"
    recorded_at := 10
    event_kind := EventKind.PAYMENT_SENT
    amount_minor := 4200
    currency := "USD"
    processing_state := ProcessingState.MAPPED
    metadata := { payment_reference := some "INV-9" } }

/-- A store whose physical scan order disagrees with recorded_at order. -/
def scanOrderDB : DBState :=
  { business_events := [newPayment, oldPayment], audit_logs := [] }

/-- C6 counterexample: with two eligible candidates for reference INV-9, the
find_payment_by_reference query (LIMIT 1 with no ORDER BY) returns the first
row in table scan order — here the newer candidate (recorded_at 10) — not the
oldest by recorded_at (recorded_at 5). -/
theorem find_payment_by_reference_not_oldest :
    paymentMatches "INV-9" ProcessingState.MAPPED "USD" oldPayment = true ∧
    oldPayment.recorded_at < newPayment.recorded_at ∧
    find_payment_by_reference scanOrderDB "INV-9" ProcessingState.MAPPED "USD" =
      some newPayment := by
  decide

/-- C6 (amended): find_payment_by_reference returns some eligible candidate
(correct kind, state, currency, reference, and null reconciliation_match_id)
whenever at least one exists, namely the first such row in table scan order;
the SQL has no ORDER BY, so the oldest-by-recorded_at tie-break of the claim
does not hold. -/
theorem find_payment_by_reference_first_eligible (db : DBState) (ref : String)
    (st : ProcessingState) (cur : String) (r : BusinessEvent)
    (hr : r ∈ db.business_events)
    (helig : paymentMatches ref st cur r = true) :
    ∃ c, find_payment_by_reference db ref st cur = some c ∧
      paymentMatches ref st cur c = true := by
  have hsome : (db.business_events.find? (paymentMatches ref st cur)).isSome := by
    rw [List.find?_isSome]
    exact ⟨r, hr, helig⟩
  obtain ⟨c, hc⟩ := Option.isSome_iff_exists.mp hsome
  exact ⟨c, hc, List.find?_some hc⟩

/-- C6 witness: on the scan-order store the query returns the newer payment,
which is an eligible candidate. -/
theorem find_payment_by_reference_first_eligible_witness :
    ∃ c, find_payment_by_reference scanOrderDB "INV-9" ProcessingState.MAPPED
        "USD" = some c ∧
      paymentMatches "INV-9" ProcessingState.MAPPED "USD" c = true :=
  find_payment_by_reference_first_eligible scanOrderDB "INV-9"
    ProcessingState.MAPPED "USD" oldPayment (by decide) (by decide)

/-- Serialization of the match info written into reconciliation_notes and the
audit metadata (the source passes json.dumps of the MatchResult dict; the
engine never reads it back, so any injective rendering serves). -/
def serializeMatchInfo (m : MatchResult) : String :=
  toString (repr m)

/-- Serialization of the discrepancy dict passed to flag_both_for_review. -/
def serializeDiscrepancy (d : Option Discrepancy) : String :=
  toString (repr d)

/-- Modelled from the spec: step 2 of the Reconciliation Coordinator (§4.3),
whose implementation `handle_reconciliation_logic` is imported by
src/backend/tests/agents/reconciliation/test_reconciliation_agent.py but is
absent from the source tree.  Invoice-kind events look up a payment by the
event's invoice_number, payment-kind events look up an invoice by the event's
payment_reference, always in the event's own currency and in state MAPPED
(matching the expectations asserted by the tests); a missing reference finds
no counterpart. -/
def findCounterpart (db : DBState) (ev : BusinessEvent) : Option BusinessEvent :=
  match ev.event_kind with
  | EventKind.INVOICE_RECEIVED | EventKind.INVOICE_SENT =>
      match ev.metadata.invoice_number with
      | none => none
      | some ref => find_payment_by_reference db ref ProcessingState.MAPPED ev.currency
  | EventKind.PAYMENT_SENT =>
      match ev.metadata.payment_reference with
      | none => none
      | some ref => find_invoice_by_number db ref ProcessingState.MAPPED ev.currency

/-- Modelled from the spec: step 4 of the Coordinator (§4.3), the branch on
MatchResult.type.  PRIMARY_MATCH: reconcile_pair then an audit entry with
action RECONCILE_SUCCESS; PARTIAL_MATCH: flag_pair_for_review then action
RECONCILE_FAIL_PARTIAL; NO_MATCH: record_attempt only (all against the
embedded repository operations of business_event_repository.py, run without
injected failure). -/
def coordinateMatch (db : DBState) (event_id : String) (now : Nat)
    (ev cp : BusinessEvent) : DBState :=
  match (evaluate_match ev (some cp)).type with
  | MatchResultType.PRIMARY_MATCH =>
      create_audit_log
        (update_both_to_reconciled db ev.event_id cp.event_id
          (serializeMatchInfo (evaluate_match ev (some cp))) now none)
        "RECONCILE_SUCCESS" event_id []
        (serializeMatchInfo (evaluate_match ev (some cp)))
  | MatchResultType.PARTIAL_MATCH =>
      create_audit_log
        (flag_both_for_review db ev.event_id cp.event_id
          (serializeDiscrepancy (evaluate_match ev (some cp)).discrepancy) now none)
        "RECONCILE_FAIL_PARTIAL" event_id []
        (serializeMatchInfo (evaluate_match ev (some cp)))
  | MatchResultType.NO_MATCH =>
      update_reconciliation_attempt db event_id (toString now) now

/-- Modelled from the spec: steps 2-4 for an event that passed the
eligibility guard. -/
def coordinateEligible (db : DBState) (event_id : String) (now : Nat)
    (ev : BusinessEvent) : DBState :=
  match findCounterpart db ev with
  | none => update_reconciliation_attempt db event_id (toString now) now
  | some cp => coordinateMatch db event_id now ev cp

/-- Modelled from the spec: the Reconciliation Coordinator
`handle_reconciliation_logic` of §4.3, absent from the source tree (only the
tests under src/backend/tests import it).  Step 1 is the idempotency guard:
fetch the event; if absent, or state is not MAPPED, or
reconciliation_match_id is already set, return immediately with no writes. -/
def handle_reconciliation_logic (db : DBState) (event_id : String) (now : Nat) :
    DBState :=
  match get_business_event_by_id db event_id with
  | none => db
  | some ev =>
    if ev.processing_state ≠ ProcessingState.MAPPED ∨
        ev.metadata.reconciliation_match_id ≠ none then db
    else coordinateEligible db event_id now ev

/-- C2: one Coordinator run on the id of an event that does not exist, is not
MAPPED, or already carries a reconciliation_match_id performs no writes at all
(the returned store is the input store, so state, metadata and audit log are
unchanged), and running it twice is a no-op both times; moreover an event with
a non-null reconciliation_match_id is never selected as a counterpart by
either counterpart query. -/
theorem coordinator_ineligible_is_noop :
    (∀ db eid now,
      (∀ ev, get_business_event_by_id db eid = some ev →
        ev.processing_state ≠ ProcessingState.MAPPED ∨
        ev.metadata.reconciliation_match_id ≠ none) →
      handle_reconciliation_logic db eid now = db ∧
      handle_reconciliation_logic (handle_reconciliation_logic db eid now) eid
        now = db) ∧
    (∀ db ref st cur c, find_payment_by_reference db ref st cur = some c →
      c.metadata.reconciliation_match_id = none) ∧
    (∀ db num st cur c, find_invoice_by_number db num st cur = some c →
      c.metadata.reconciliation_match_id = none) := by
  have main : ∀ db eid now,
      (∀ ev, get_business_event_by_id db eid = some ev →
        ev.processing_state ≠ ProcessingState.MAPPED ∨
        ev.metadata.reconciliation_match_id ≠ none) →
      handle_reconciliation_logic db eid now = db := by
    intro db eid now h
    unfold handle_reconciliation_logic
    cases hev : get_business_event_by_id db eid with
    | none => rfl
    | some ev =>
      show (if ev.processing_state ≠ ProcessingState.MAPPED ∨
          ev.metadata.reconciliation_match_id ≠ none then db
        else coordinateEligible db eid now ev) = db
      rw [if_pos (h ev hev)]
  refine ⟨fun db eid now h => ?_, fun db ref st cur c hc => ?_, fun db num st cur c hc => ?_⟩
  · have h1 := main db eid now h
    exact ⟨h1, by rw [h1]; exact h1⟩
  · have := List.find?_some hc
    unfold paymentMatches at this
    simp only [decide_eq_true_eq, Bool.and_eq_true] at this
    exact this.2.2.2.2
  · have := List.find?_some hc
    unfold invoiceMatches at this
    simp only [decide_eq_true_eq, Bool.and_eq_true] at this
    exact this.2.2.2.2

/-- An invoice that already carries a reconciliation_match_id. -/
def matchedInvoice : BusinessEvent :=
  { wInvoice with
      event_id := "inv-m"
      metadata := { wInvoice.metadata with
        reconciliation_match_id := some "pay-x" } }

/-- A store holding only the already-matched invoice. -/
def matchedDB : DBState :=
  { business_events := [matchedInvoice], audit_logs := [] }

/-- C2 witness: on the store holding an already-matched invoice, one and two
Coordinator runs leave the store unchanged, and a concrete counterpart lookup
never returns a matched row. -/
theorem coordinator_ineligible_is_noop_witness :
    handle_reconciliation_logic matchedDB "inv-m" 4 = matchedDB ∧
    handle_reconciliation_logic
      (handle_reconciliation_logic matchedDB "inv-m" 4) "inv-m" 4 = matchedDB :=
  coordinator_ineligible_is_noop.1 matchedDB "inv-m" 4
    (by
      intro ev hev
      have h2 : some matchedInvoice = some ev := hev
      obtain rfl : matchedInvoice = ev := by injection h2
      right
      decide)

/-- The audit-log INSERT does not touch the business_events table. -/
theorem get_create_audit_log (db : DBState) (a e m : String) (c : List String)
    (j : String) :
    get_business_event_by_id (create_audit_log db a e c m) j =
      get_business_event_by_id db j := rfl

/-- C4: for a reconciliation attempt that yields a MatchResult on an eligible
event with a found counterpart, the Coordinator's branch on the result type
sets both paired rows to RECONCILED, stamps each with the other's id and
appends a RECONCILE_SUCCESS audit entry when the type is PRIMARY_MATCH, and
sets both rows to FLAGGED_FOR_REVIEW with a RECONCILE_FAIL_PARTIAL audit
entry when the type is PARTIAL_MATCH. -/
theorem coordinator_branch_on_match_type (db : DBState) (eid : String)
    (now : Nat) (ev cp cpr : BusinessEvent)
    (hev : get_business_event_by_id db eid = some ev)
    (hstate : ev.processing_state = ProcessingState.MAPPED)
    (hmid : ev.metadata.reconciliation_match_id = none)
    (hcp : findCounterpart db ev = some cp)
    (hcpr : get_business_event_by_id db cp.event_id = some cpr)
    (hne : eid ≠ cp.event_id) :
    ((evaluate_match ev (some cp)).type = MatchResultType.PRIMARY_MATCH →
      (get_business_event_by_id (handle_reconciliation_logic db eid now) eid).map
          (fun r => (r.processing_state, r.metadata.reconciliation_match_id)) =
        some (ProcessingState.RECONCILED, some cp.event_id) ∧
      (get_business_event_by_id (handle_reconciliation_logic db eid now)
          cp.event_id).map
          (fun r => (r.processing_state, r.metadata.reconciliation_match_id)) =
        some (ProcessingState.RECONCILED, some eid) ∧
      (handle_reconciliation_logic db eid now).audit_logs = db.audit_logs ++
        [{ action := "RECONCILE_SUCCESS"
           entity_type := "BUSINESS_EVENT"
           entity_id := eid
           actor_type := "AI_AGENT"
           actor_id := "reconciliation-agent"
           changes := []
           metadata := serializeMatchInfo (evaluate_match ev (some cp)) }]) ∧
    ((evaluate_match ev (some cp)).type = MatchResultType.PARTIAL_MATCH →
      (get_business_event_by_id (handle_reconciliation_logic db eid now) eid).map
          (fun r => (r.processing_state, r.metadata.reconciliation_match_id)) =
        some (ProcessingState.FLAGGED_FOR_REVIEW, some cp.event_id) ∧
      (get_business_event_by_id (handle_reconciliation_logic db eid now)
          cp.event_id).map
          (fun r => (r.processing_state, r.metadata.reconciliation_match_id)) =
        some (ProcessingState.FLAGGED_FOR_REVIEW, some eid) ∧
      (handle_reconciliation_logic db eid now).audit_logs = db.audit_logs ++
        [{ action := "RECONCILE_FAIL_PARTIAL"
           entity_type := "BUSINESS_EVENT"
           entity_id := eid
           actor_type := "AI_AGENT"
           actor_id := "reconciliation-agent"
           changes := []
           metadata := serializeMatchInfo (evaluate_match ev (some cp)) }]) := by
  have heqid : ev.event_id = eid := by
    have := List.find?_some hev
    simpa [beq_iff_eq] using this
  have hne' : ev.event_id ≠ cp.event_id := heqid ▸ hne
  have hguard : ¬ (ev.processing_state ≠ ProcessingState.MAPPED ∨
      ev.metadata.reconciliation_match_id ≠ none) := by
    simp [hstate, hmid]
  have hstep : handle_reconciliation_logic db eid now =
      coordinateMatch db eid now ev cp := by
    unfold handle_reconciliation_logic
    cases hev2 : get_business_event_by_id db eid with
    | none => rw [hev2] at hev; cases hev
    | some ev2 =>
      have hee : ev2 = ev := by rw [hev2] at hev; injection hev
      show (if ev2.processing_state ≠ ProcessingState.MAPPED ∨
          ev2.metadata.reconciliation_match_id ≠ none then db
        else coordinateEligible db eid now ev2) = _
      rw [hee, if_neg hguard]
      unfold coordinateEligible
      rw [hcp]
  constructor
  · intro htype
    have hrun : handle_reconciliation_logic db eid now =
        create_audit_log
          (update_both_to_reconciled db ev.event_id cp.event_id
            (serializeMatchInfo (evaluate_match ev (some cp))) now none)
          "RECONCILE_SUCCESS" eid []
          (serializeMatchInfo (evaluate_match ev (some cp))) := by
      rw [hstep]
      unfold coordinateMatch
      rw [htype]
    refine ⟨?_, ?_, ?_⟩
    · rw [hrun, get_create_audit_log, ← heqid,
        get_update_both_to_reconciled_fst db ev.event_id cp.event_id _ now hne',
        heqid, hev]
      rfl
    · rw [hrun, get_create_audit_log,
        get_update_both_to_reconciled_snd db ev.event_id cp.event_id _ now hne',
        hcpr, heqid]
      rfl
    · rw [hrun]
      rfl
  · intro htype
    have hrun : handle_reconciliation_logic db eid now =
        create_audit_log
          (flag_both_for_review db ev.event_id cp.event_id
            (serializeDiscrepancy (evaluate_match ev (some cp)).discrepancy)
            now none)
          "RECONCILE_FAIL_PARTIAL" eid []
          (serializeMatchInfo (evaluate_match ev (some cp))) := by
      rw [hstep]
      unfold coordinateMatch
      rw [htype]
    refine ⟨?_, ?_, ?_⟩
    · rw [hrun, get_create_audit_log, ← heqid,
        get_flag_both_for_review_fst db ev.event_id cp.event_id _ now hne',
        heqid, hev]
      rfl
    · rw [hrun, get_create_audit_log,
        get_flag_both_for_review_snd db ev.event_id cp.event_id _ now hne',
        hcpr, heqid]
      rfl
    · rw [hrun]
      rfl

/-- C4 witness: on the concrete two-row store the Scenario A invoice yields a
PRIMARY_MATCH and the Coordinator run leaves the invoice row RECONCILED and
stamped with the payment's id. -/
theorem coordinator_branch_on_match_type_witness :
    (get_business_event_by_id (handle_reconciliation_logic exDB "inv-1" 9)
        "inv-1").map
        (fun r => (r.processing_state, r.metadata.reconciliation_match_id)) =
      some (ProcessingState.RECONCILED, some "pay-1") :=
  ((coordinator_branch_on_match_type exDB "inv-1" 9 wInvoice wPayment wPayment
      rfl rfl rfl (by decide) rfl (by decide)).1 (by decide)).1

/-- Outcome of one trigger-path attempt on an event row. -/
inductive AttemptOutcome where
  | committed
  | lockFailed
deriving DecidableEq, Repr

/-- Phase of one trigger-path task: before its lock attempt, holding the row
lock, or finished with an outcome. -/
inductive TaskPhase where
  | ready
  | holding
  | finished (r : AttemptOutcome)
deriving DecidableEq, Repr

/-- Modelled from the spec: the shared state of the two trigger paths (§4.4)
racing on one event row — the committed store, whether the row lock on the
target event is held, and the phase of the on-demand task and of the sweep
task.  The spec's scheduling model (§5) is cooperative with suspension points
exclusively at store operations, so one step is one store operation. -/
structure DualTriggerState where
  db : DBState
  lockHeld : Bool
  onDemand : TaskPhase
  sweep : TaskPhase
deriving DecidableEq, Repr

/-- Modelled from the spec: one store operation of one trigger path.  A ready
task issues SELECT ... FOR UPDATE NOWAIT on the event row (the clause carried
by get_unreconciled_mapped_events in business_event_repository.py): if the
lock is already held elsewhere the store fails fast and the attempt finishes
as LockUnavailable with no writes (§4.4, §7); otherwise the task acquires the
lock.  A holding task runs the Coordinator inside its transaction and
commits, releasing the lock.  A finished task does nothing. -/
def stepTask (eid : String) (now : Nat) (s : DualTriggerState)
    (phase : TaskPhase) : DualTriggerState × TaskPhase :=
  match phase with
  | TaskPhase.ready =>
      if s.lockHeld then (s, TaskPhase.finished AttemptOutcome.lockFailed)
      else ({ s with lockHeld := true }, TaskPhase.holding)
  | TaskPhase.holding =>
      ({ s with
          db := handle_reconciliation_logic s.db eid now
          lockHeld := false },
       TaskPhase.finished AttemptOutcome.committed)
  | TaskPhase.finished r => (s, TaskPhase.finished r)

/-- One scheduler step: pick = true steps the on-demand task, pick = false
steps the sweep task. -/
def stepSystem (eid : String) (now : Nat) (s : DualTriggerState)
    (pick : Bool) : DualTriggerState :=
  if pick then
    { (stepTask eid now s s.onDemand).1 with
        onDemand := (stepTask eid now s s.onDemand).2 }
  else
    { (stepTask eid now s s.sweep).1 with
        sweep := (stepTask eid now s s.sweep).2 }

/-- Run the two tasks under an arbitrary interleaving. -/
def runSchedule (eid : String) (now : Nat) (sched : List Bool)
    (s : DualTriggerState) : DualTriggerState :=
  sched.foldl (stepSystem eid now) s

/-- Both tasks about to attempt the same event, no lock held. -/
def initState (db : DBState) : DualTriggerState :=
  { db := db
    lockHeld := false
    onDemand := TaskPhase.ready
    sweep := TaskPhase.ready }

/-- Exhaustive invariant of the dual-trigger system: every reachable state is
one of twelve shapes, the lock is never held by both tasks, a task that
observed a lock failure has written nothing, and the store only ever holds
the initial state, the effect of one Coordinator run, or of two sequential
runs. -/
def ReachInv (db0 : DBState) (eid : String) (now : Nat)
    (s : DualTriggerState) : Prop :=
  (s.onDemand = TaskPhase.ready ∧ s.sweep = TaskPhase.ready ∧
    s.lockHeld = false ∧ s.db = db0) ∨
  (s.onDemand = TaskPhase.holding ∧ s.sweep = TaskPhase.ready ∧
    s.lockHeld = true ∧ s.db = db0) ∨
  (s.onDemand = TaskPhase.holding ∧
    s.sweep = TaskPhase.finished AttemptOutcome.lockFailed ∧
    s.lockHeld = true ∧ s.db = db0) ∨
  (s.onDemand = TaskPhase.ready ∧ s.sweep = TaskPhase.holding ∧
    s.lockHeld = true ∧ s.db = db0) ∨
  (s.onDemand = TaskPhase.finished AttemptOutcome.lockFailed ∧
    s.sweep = TaskPhase.holding ∧ s.lockHeld = true ∧ s.db = db0) ∨
  (s.onDemand = TaskPhase.finished AttemptOutcome.committed ∧
    s.sweep = TaskPhase.ready ∧ s.lockHeld = false ∧
    s.db = handle_reconciliation_logic db0 eid now) ∨
  (s.onDemand = TaskPhase.finished AttemptOutcome.committed ∧
    s.sweep = TaskPhase.finished AttemptOutcome.lockFailed ∧
    s.lockHeld = false ∧ s.db = handle_reconciliation_logic db0 eid now) ∨
  (s.onDemand = TaskPhase.ready ∧
    s.sweep = TaskPhase.finished AttemptOutcome.committed ∧
    s.lockHeld = false ∧ s.db = handle_reconciliation_logic db0 eid now) ∨
  (s.onDemand = TaskPhase.finished AttemptOutcome.lockFailed ∧
    s.sweep = TaskPhase.finished AttemptOutcome.committed ∧
    s.lockHeld = false ∧ s.db = handle_reconciliation_logic db0 eid now) ∨
  (s.onDemand = TaskPhase.finished AttemptOutcome.committed ∧
    s.sweep = TaskPhase.holding ∧ s.lockHeld = true ∧
    s.db = handle_reconciliation_logic db0 eid now) ∨
  (s.onDemand = TaskPhase.holding ∧
    s.sweep = TaskPhase.finished AttemptOutcome.committed ∧
    s.lockHeld = true ∧ s.db = handle_reconciliation_logic db0 eid now) ∨
  (s.onDemand = TaskPhase.finished AttemptOutcome.committed ∧
    s.sweep = TaskPhase.finished AttemptOutcome.committed ∧
    s.lockHeld = false ∧
    s.db = handle_reconciliation_logic
      (handle_reconciliation_logic db0 eid now) eid now)

/-- The invariant is preserved by every scheduler step. -/
theorem reachInv_step (db0 : DBState) (eid : String) (now : Nat)
    (s : DualTriggerState) (pick : Bool) (h : ReachInv db0 eid now s) :
    ReachInv db0 eid now (stepSystem eid now s pick) := by
  rcases s with ⟨sdb, slock, sa, sb⟩
  unfold ReachInv at h ⊢
  rcases h with ⟨h1, h2, h3, h4⟩ | ⟨h1, h2, h3, h4⟩ | ⟨h1, h2, h3, h4⟩ |
    ⟨h1, h2, h3, h4⟩ | ⟨h1, h2, h3, h4⟩ | ⟨h1, h2, h3, h4⟩ |
    ⟨h1, h2, h3, h4⟩ | ⟨h1, h2, h3, h4⟩ | ⟨h1, h2, h3, h4⟩ |
    ⟨h1, h2, h3, h4⟩ | ⟨h1, h2, h3, h4⟩ | ⟨h1, h2, h3, h4⟩ <;>
  simp only [] at h1 h2 h3 h4 <;>
  subst h1 <;> subst h2 <;> subst h3 <;> subst h4 <;>
  cases pick <;>
  simp [stepSystem, stepTask]

/-- The invariant holds after running any schedule from a state satisfying
it. -/
theorem reachInv_foldl (db0 : DBState) (eid : String) (now : Nat)
    (sched : List Bool) (s : DualTriggerState) (h : ReachInv db0 eid now s) :
    ReachInv db0 eid now (sched.foldl (stepSystem eid now) s) := by
  induction sched generalizing s with
  | nil => exact h
  | cons b l ih => exact ih _ (reachInv_step db0 eid now s b h)

/-- C5: under every interleaving of the on-demand trigger and the periodic
sweep against the same event id, if both attempts finish and the attempts
contended (at least one observed the fail-fast lock failure, the operational
meaning of concurrent attempts on one row), then exactly one attempt
committed, the other observed LockUnavailable, and the final store equals the
effect of a single Coordinator run on the initial store — the losing attempt
performed no writes. -/
theorem dual_trigger_at_most_once (db0 : DBState) (eid : String) (now : Nat)
    (sched : List Bool) (ra rb : AttemptOutcome)
    (ha : (runSchedule eid now sched (initState db0)).onDemand =
      TaskPhase.finished ra)
    (hb : (runSchedule eid now sched (initState db0)).sweep =
      TaskPhase.finished rb)
    (hcontend : ra = AttemptOutcome.lockFailed ∨
      rb = AttemptOutcome.lockFailed) :
    ((ra = AttemptOutcome.committed ∧ rb = AttemptOutcome.lockFailed) ∨
     (ra = AttemptOutcome.lockFailed ∧ rb = AttemptOutcome.committed)) ∧
    (runSchedule eid now sched (initState db0)).db =
      handle_reconciliation_logic db0 eid now := by
  have hinv : ReachInv db0 eid now (runSchedule eid now sched (initState db0)) :=
    reachInv_foldl db0 eid now sched (initState db0)
      (Or.inl ⟨rfl, rfl, rfl, rfl⟩)
  unfold ReachInv at hinv
  rcases hinv with ⟨h1, h2, h3, h4⟩ | ⟨h1, h2, h3, h4⟩ | ⟨h1, h2, h3, h4⟩ |
    ⟨h1, h2, h3, h4⟩ | ⟨h1, h2, h3, h4⟩ | ⟨h1, h2, h3, h4⟩ |
    ⟨h1, h2, h3, h4⟩ | ⟨h1, h2, h3, h4⟩ | ⟨h1, h2, h3, h4⟩ |
    ⟨h1, h2, h3, h4⟩ | ⟨h1, h2, h3, h4⟩ | ⟨h1, h2, h3, h4⟩ <;>
  rw [h1] at ha <;> rw [h2] at hb <;>
  simp only [TaskPhase.finished.injEq, reduceCtorEq] at ha hb <;>
  subst ha <;> subst hb <;>
  first
    | exact ⟨Or.inl ⟨rfl, rfl⟩, h4⟩
    | exact ⟨Or.inr ⟨rfl, rfl⟩, h4⟩
    | (rcases hcontend with hc | hc <;> simp at hc)

/-- An empty store for the C5 witness. -/
def emptyDB : DBState := { business_events := [], audit_logs := [] }

/-- C5 witness: under the contended schedule in which the on-demand path
locks, the sweep then attempts the same row and fails fast, and the on-demand
path commits, the outcomes are committed versus lockFailed and the final
store is the single-run effect. -/
theorem dual_trigger_at_most_once_witness :
    ((AttemptOutcome.committed = AttemptOutcome.committed ∧
        AttemptOutcome.lockFailed = AttemptOutcome.lockFailed) ∨
      (AttemptOutcome.committed = AttemptOutcome.lockFailed ∧
        AttemptOutcome.lockFailed = AttemptOutcome.committed)) ∧
    (runSchedule "e" 0 [true, false, true] (initState emptyDB)).db =
      handle_reconciliation_logic emptyDB "e" 0 :=
  dual_trigger_at_most_once emptyDB "e" 0 [true, false, true]
    AttemptOutcome.committed AttemptOutcome.lockFailed
    (by decide) (by decide) (Or.inr rfl)

end Bookkeeper
